import Mathlib

/-
Verification of the decay-fit estimator scripts of the
Radioactive-Source-2.0 repository (final_fit.py, Radioactive_Code.py).
The numeric values of the scripts are modelled as real numbers; the
fallible parts of the pipeline (Python exceptions) are modelled with
the Except monad; the external nonlinear solver (scipy curve_fit) is an
abstract parameter.
-/

namespace RadioactiveSource

/-- Constant LN2 = np.log(2) from final_fit.py. -/
noncomputable def LN2 : ℝ := Real.log 2

/-- Single model from final_fit.py: N(t) = A * exp(-t/tau) + c. -/
noncomputable def model_single (t A tau c : ℝ) : ℝ :=
  A * Real.exp (-t / tau) + c

/-- Double model from final_fit.py:
N(t) = A1 * exp(-t/tau1) + A2 * exp(-t/tau2) + c. -/
noncomputable def model_double (t A1 tau1 A2 tau2 c : ℝ) : ℝ :=
  A1 * Real.exp (-t / tau1) + A2 * Real.exp (-t / tau2) + c

/-- Per-point fit weight, sigma = np.sqrt(np.clip(y, 1, None)) applied to
one count value: np.clip(y, 1, None) is max y 1. -/
noncomputable def sigma (c : ℝ) : ℝ := Real.sqrt (max c 1)

/-- Python exceptions that the fitting pipeline can raise: ValueError
(raised by max() on an empty sequence and by numpy reductions on empty
arrays) and RuntimeError (raised by scipy curve_fit on non-convergence). -/
inductive PyError
  | valueError (msg : String)
  | runtimeError (msg : String)

/-- Fold computing the Python builtin max of the nonempty list x :: xs. -/
noncomputable def listMax (x : ℝ) (xs : List ℝ) : ℝ := xs.foldl max x

/-- Fold computing the Python builtin min of the nonempty list x :: xs. -/
noncomputable def listMin (x : ℝ) (xs : List ℝ) : ℝ := xs.foldl min x

/-- Python builtin max(y): raises ValueError on an empty sequence. -/
noncomputable def pymax : List ℝ → Except PyError ℝ
  | [] => Except.error (PyError.valueError ("max() arg is an empty sequence"))
  | x :: xs => Except.ok (listMax x xs)

/-- Python builtin min(y): raises ValueError on an empty sequence. -/
noncomputable def pymin : List ℝ → Except PyError ℝ
  | [] => Except.error (PyError.valueError ("min() arg is an empty sequence"))
  | x :: xs => Except.ok (listMin x xs)

/-- numpy t.max(): raises ValueError on an empty array. -/
noncomputable def npmax : List ℝ → Except PyError ℝ
  | [] => Except.error (PyError.valueError
      ("zero-size array to reduction operation maximum which has no identity"))
  | x :: xs => Except.ok (listMax x xs)

/-- numpy t.min(): raises ValueError on an empty array. -/
noncomputable def npmin : List ℝ → Except PyError ℝ
  | [] => Except.error (PyError.valueError
      ("zero-size array to reduction operation minimum which has no identity"))
  | x :: xs => Except.ok (listMin x xs)

/-- Shared guess data of the main loop of final_fit.py, in evaluation
order: amp_span = max(y) - min(y), c_guess = min(y),
duration = t.max() - t.min().  Returns (amp_span, c_guess, duration). -/
noncomputable def guessData (t y : List ℝ) : Except PyError (ℝ × ℝ × ℝ) := do
  let ymax ← pymax y
  let ymin ← pymin y
  let tmax ← npmax t
  let tmin ← npmin t
  Except.ok (ymax - ymin, ymin, tmax - tmin)

/-- Initial guesses of the single branch of the main loop of final_fit.py:
p0 = [amp_span, duration/3, c_guess]. -/
noncomputable def singleFitP0 (t y : List ℝ) : Except PyError (List ℝ) := do
  let g ← guessData t y
  Except.ok [g.1, g.2.2 / 3, g.2.1]

/-- Initial guesses of the double branch of the main loop of final_fit.py:
p0 = [amp_span/2, duration/10, amp_span/2, duration/2, c_guess]. -/
noncomputable def doubleFitP0 (t y : List ℝ) : Except PyError (List ℝ) := do
  let g ← guessData t y
  Except.ok [g.1 / 2, g.2.2 / 10, g.1 / 2, g.2.2 / 2, g.2.1]

/-- Initial guesses of Radioactive_Code.py: N0_guess = max(y) - min(y),
tau_guess = (t.max() - t.min()) / 3, c_guess = min(y),
p0 = [N0_guess, tau_guess, c_guess].  No fallback on tau_guess. -/
noncomputable def radioactiveP0 (t y : List ℝ) : Except PyError (List ℝ) := do
  let m ← pymax y
  let n ← pymin y
  let tmax ← npmax t
  let tmin ← npmin t
  Except.ok [m - n, (tmax - tmin) / 3, n]

/-- Initial guesses of the initial fits.py section of final_fit.py:
tau_guess = (t.max() - t.min()) / 3 if (t.max() - t.min()) > 0 else 1.0. -/
noncomputable def initialFitsP0 (t y : List ℝ) : Except PyError (List ℝ) := do
  let m ← pymax y
  let n ← pymin y
  let tmax ← npmax t
  let tmin ← npmin t
  Except.ok [m - n, if 0 < tmax - tmin then (tmax - tmin) / 3 else 1, n]

/-- Single-fit pipeline of the main loop of final_fit.py up to the solver
call: compute p0 from the data, then hand t, y, p0 and the Poisson
weights to curve_fit (an abstract external solver). -/
noncomputable def runSingleFit
    (curveFit : List ℝ → List ℝ → List ℝ → List ℝ → Except PyError (List ℝ × List ℝ))
    (t y : List ℝ) : Except PyError (List ℝ × List ℝ) := do
  let p0 ← singleFitP0 t y
  curveFit t y p0 (y.map sigma)

/-- Derived half-life of the single branch of final_fit.py from
popt and perr = sqrt(diag(pcov)): tau = popt[1], tau_err = perr[1],
t_half = tau * LN2, t_half_err = tau_err * LN2. -/
noncomputable def singleHalfLife (popt perr : List ℝ) : ℝ × ℝ :=
  (popt.getD 1 0 * LN2, perr.getD 1 0 * LN2)

/-- Derived half-lives of the double branch of final_fit.py:
t1_half = tau1 * LN2 with error perr[1] * LN2, and
t2_half = tau2 * LN2 with error perr[3] * LN2, where tau1 = popt[1]
and tau2 = popt[3]. -/
noncomputable def doubleHalfLives (popt perr : List ℝ) : (ℝ × ℝ) × (ℝ × ℝ) :=
  ((popt.getD 1 0 * LN2, perr.getD 1 0 * LN2),
   (popt.getD 3 0 * LN2, perr.getD 3 0 * LN2))

/-- Abundances of the double branch of final_fit.py:
total_amp = A1 + A2, abund1 = (A1 / total_amp) * 100,
abund2 = (A2 / total_amp) * 100. -/
noncomputable def doubleAbundances (A1 A2 : ℝ) : ℝ × ℝ :=
  ((A1 / (A1 + A2)) * 100, (A2 / (A1 + A2)) * 100)

/-- Box bounds of the single curve_fit calls:
([0, 0, -np.inf], [np.inf, np.inf, np.inf]). -/
def singleLowerBounds : List EReal := [((0 : ℝ) : EReal), ((0 : ℝ) : EReal), ⊥]

/-- Upper half of the single-fit box bounds. -/
def singleUpperBounds : List EReal := [⊤, ⊤, ⊤]

/-- Box bounds of the double curve_fit call:
([0, 0, 0, 0, -np.inf], [np.inf, np.inf, np.inf, np.inf, np.inf]). -/
def doubleLowerBounds : List EReal :=
  [((0 : ℝ) : EReal), ((0 : ℝ) : EReal), ((0 : ℝ) : EReal), ((0 : ℝ) : EReal), ⊥]

/-- Upper half of the double-fit box bounds. -/
def doubleUpperBounds : List EReal := [⊤, ⊤, ⊤, ⊤, ⊤]

/-- A parameter vector lies within the box bounds (the contract of the
bounded trust-region solver). -/
def withinBounds (lo hi : List EReal) (p : List ℝ) : Prop :=
  ∀ i, i < p.length →
    lo.getD i ⊥ ≤ ((p.getD i 0 : ℝ) : EReal) ∧
    ((p.getD i 0 : ℝ) : EReal) ≤ hi.getD i ⊤

/-- What one channel of a batch run produces: a plotted fit, or the raw
data alone with the printed failure reason. -/
inductive ChannelOutcome (α : Type)
  | fitPlotted (r : α)
  | rawDataOnly (reason : String)

/-- Main loop of final_fit.py: every channel body is inside
try/except, so a failed fit prints the reason, plots the raw data only,
and the loop continues with the next channel. -/
def finalFitMainLoop (α : Type) (outcomes : List (Except String α)) :
    List (ChannelOutcome α) :=
  outcomes.map fun o =>
    match o with
    | Except.ok r => ChannelOutcome.fitPlotted r
    | Except.error e => ChannelOutcome.rawDataOnly e

/-- Source loop of Radioactive_Code.py: the curve_fit call is unguarded,
so the first failing fit raises out of the loop and aborts the script;
later sources are never processed. -/
def radioactiveLoop (α : Type) : List (Except String α) →
    Except String (List (ChannelOutcome α))
  | [] => Except.ok []
  | Except.error e :: _ => Except.error e
  | Except.ok r :: rest => do
      let tail ← radioactiveLoop α rest
      Except.ok (ChannelOutcome.fitPlotted r :: tail)

/-- Configuration of one curve_fit call site. -/
structure CurveFitCall where
  absoluteSigma : Bool

/-- curve_fit call of the single branch of the main loop of final_fit.py
(absolute_sigma=True). -/
def finalFitSingleCall : CurveFitCall := ⟨true⟩

/-- curve_fit call of the double branch of the main loop of final_fit.py
(absolute_sigma=True). -/
def finalFitDoubleCall : CurveFitCall := ⟨true⟩

/-- curve_fit call of the initial fits.py section of final_fit.py
(absolute_sigma=True). -/
def initialFitsCall : CurveFitCall := ⟨true⟩

/-- curve_fit call of Radioactive_Code.py (absolute_sigma=False). -/
def radioactiveCall : CurveFitCall := ⟨false⟩

/-- Modelled from the spec: the covariance post-processing of the external
solver scipy.optimize.curve_fit, which is not part of this repository.
Per the spec, the weights are either treated as absolute uncertainties
(absolute_sigma=True, the covariance diagonal is returned as computed) or
as relative ones (absolute_sigma=False, the covariance is rescaled by the
reduced chi-square); the parameter estimates popt are unaffected by the
flag. -/
noncomputable def curveFitReport (absoluteSigma : Bool) (popt covDiag : List ℝ)
    (redChi2 : ℝ) : List ℝ × List ℝ :=
  (popt, if absoluteSigma then covDiag else covDiag.map (fun v => redChi2 * v))

/-- Unfolding of singleFitP0 on nonempty inputs. -/
theorem singleFitP0_cons (t0 y0 : ℝ) (ts ys : List ℝ) :
    singleFitP0 (t0 :: ts) (y0 :: ys) =
      Except.ok [listMax y0 ys - listMin y0 ys,
        (listMax t0 ts - listMin t0 ts) / 3, listMin y0 ys] := rfl

/-- Unfolding of doubleFitP0 on nonempty inputs. -/
theorem doubleFitP0_cons (t0 y0 : ℝ) (ts ys : List ℝ) :
    doubleFitP0 (t0 :: ts) (y0 :: ys) =
      Except.ok [(listMax y0 ys - listMin y0 ys) / 2,
        (listMax t0 ts - listMin t0 ts) / 10,
        (listMax y0 ys - listMin y0 ys) / 2,
        (listMax t0 ts - listMin t0 ts) / 2, listMin y0 ys] := rfl

/-- Unfolding of radioactiveP0 on nonempty inputs. -/
theorem radioactiveP0_cons (t0 y0 : ℝ) (ts ys : List ℝ) :
    radioactiveP0 (t0 :: ts) (y0 :: ys) =
      Except.ok [listMax y0 ys - listMin y0 ys,
        (listMax t0 ts - listMin t0 ts) / 3, listMin y0 ys] := rfl

/-- Unfolding of initialFitsP0 on nonempty inputs. -/
theorem initialFitsP0_cons (t0 y0 : ℝ) (ts ys : List ℝ) :
    initialFitsP0 (t0 :: ts) (y0 :: ys) =
      Except.ok [listMax y0 ys - listMin y0 ys,
        if 0 < listMax t0 ts - listMin t0 ts
          then (listMax t0 ts - listMin t0 ts) / 3 else 1,
        listMin y0 ys] := rfl

/-- Claim C1: for every fitted decay time tau with standard error tau_err,
the derived half-life equals tau * ln 2 and the derived half-life error
equals tau_err * ln 2, for the single fit and for both components of the
double fit. -/
theorem half_life_from_tau :
    ∀ A tau c eA etau ec : ℝ,
      singleHalfLife [A, tau, c] [eA, etau, ec] =
        (tau * Real.log 2, etau * Real.log 2) ∧
    ∀ A1 tau1 A2 tau2 cc e0 e1 e2 e3 e4 : ℝ,
      doubleHalfLives [A1, tau1, A2, tau2, cc] [e0, e1, e2, e3, e4] =
        ((tau1 * Real.log 2, e1 * Real.log 2),
         (tau2 * Real.log 2, e3 * Real.log 2)) := by
  intro A tau c eA etau ec
  exact ⟨rfl, fun A1 tau1 A2 tau2 cc e0 e1 e2 e3 e4 => rfl⟩

/-- Claim C2: for every count value c ≥ 0 the per-point fit weight equals
sqrt (max c 1), hence is at least 1, and the weight is monotone
non-decreasing in the count. -/
theorem poisson_weight_floor_mono :
    (∀ c : ℝ, 0 ≤ c → sigma c = Real.sqrt (max c 1) ∧ 1 ≤ sigma c) ∧
    (∀ c1 c2 : ℝ, c1 ≤ c2 → sigma c1 ≤ sigma c2) := by
  constructor
  · intro c _
    refine ⟨rfl, ?_⟩
    have h : Real.sqrt 1 ≤ Real.sqrt (max c 1) :=
      Real.sqrt_le_sqrt (le_max_right c 1)
    rwa [Real.sqrt_one] at h
  · intro c1 c2 h
    exact Real.sqrt_le_sqrt (max_le_max h le_rfl)

/-- Witness for C2 at the concrete counts 4 and 9. -/
theorem poisson_weight_floor_mono_witness :
    sigma 4 = Real.sqrt (max 4 1) ∧ 1 ≤ sigma 4 ∧ sigma 4 ≤ sigma 9 :=
  ⟨(poisson_weight_floor_mono.1 4 (by norm_num)).1,
   (poisson_weight_floor_mono.1 4 (by norm_num)).2,
   poisson_weight_floor_mono.2 4 9 (by norm_num)⟩

/-- Claim C7: for every double fit with A1 + A2 ≠ 0 the reported
abundances are 100 * A1 / (A1 + A2) and 100 * A2 / (A1 + A2), and they sum
exactly to 100. -/
theorem abundance_sum :
    ∀ A1 A2 : ℝ, A1 + A2 ≠ 0 →
      (doubleAbundances A1 A2).1 = 100 * A1 / (A1 + A2) ∧
      (doubleAbundances A1 A2).2 = 100 * A2 / (A1 + A2) ∧
      (doubleAbundances A1 A2).1 + (doubleAbundances A1 A2).2 = 100 := by
  intro A1 A2 h
  refine ⟨by rw [doubleAbundances]; ring, by rw [doubleAbundances]; ring, ?_⟩
  rw [doubleAbundances]
  field_simp
  ring

/-- Witness for C7 at the concrete amplitudes A1 = 3, A2 = 1. -/
theorem abundance_sum_witness :
    (doubleAbundances 3 1).1 + (doubleAbundances 3 1).2 = 100 :=
  (abundance_sum 3 1 (by norm_num)).2.2

/-- Claim C10: the single model is nested in the double model: for all
t, A1, tau1, tau2, c with tau1, tau2 > 0, setting A2 = 0 in the double
model yields the single model. -/
theorem model_nesting :
    ∀ t A1 tau1 tau2 c : ℝ, 0 < tau1 → 0 < tau2 →
      model_double t A1 tau1 0 tau2 c = model_single t A1 tau1 c := by
  intro t A1 tau1 tau2 c _ _
  simp [model_double, model_single]

/-- Witness for C10 at t = 1, A1 = 2, tau1 = 3, tau2 = 4, c = 5. -/
theorem model_nesting_witness :
    model_double 1 2 3 0 4 5 = model_single 1 2 3 5 :=
  model_nesting 1 2 3 4 5 (by norm_num) (by norm_num)

/-- Claim C4: on the empty input series the pipeline fails before the
solver is ever invoked (the result is the same for every solver), with the
ValueError raised by max() on an empty sequence, which is distinguishable
from the RuntimeError of a solver failure, and no result is produced. -/
theorem empty_series_fails_before_solver :
    ∀ curveFit : List ℝ → List ℝ → List ℝ → List ℝ →
        Except PyError (List ℝ × List ℝ),
      runSingleFit curveFit [] [] =
        Except.error (PyError.valueError ("max() arg is an empty sequence")) ∧
      (∀ msg, PyError.valueError ("max() arg is an empty sequence") ≠
        PyError.runtimeError msg) ∧
      (∀ r, runSingleFit curveFit [] [] ≠ Except.ok r) := by
  intro curveFit
  refine ⟨rfl, fun msg h => PyError.noConfusion h, fun r hr => ?_⟩
  exact Except.noConfusion hr

/-- Witness for C4 at a concrete solver that would always succeed: the
empty series still produces the ValueError of the guess computation. -/
theorem empty_series_fails_before_solver_witness :
    runSingleFit (fun _ _ _ _ => Except.ok ([], [])) [] [] =
      Except.error (PyError.valueError ("max() arg is an empty sequence")) :=
  (empty_series_fails_before_solver (fun _ _ _ _ => Except.ok ([], []))).1

/-- Claim C8: for every nonempty input series the initial guesses are
amplitude = max y - min y (split in half per component for the double
fit), decay time = duration / 3 for the single fit and Radioactive_Code,
the fast and slow split duration / 10 and duration / 2 for the double fit,
and baseline = min y. -/
theorem initial_guesses_from_data :
    ∀ (t0 y0 : ℝ) (ts ys : List ℝ),
      singleFitP0 (t0 :: ts) (y0 :: ys) =
        Except.ok [listMax y0 ys - listMin y0 ys,
          (listMax t0 ts - listMin t0 ts) / 3, listMin y0 ys] ∧
      doubleFitP0 (t0 :: ts) (y0 :: ys) =
        Except.ok [(listMax y0 ys - listMin y0 ys) / 2,
          (listMax t0 ts - listMin t0 ts) / 10,
          (listMax y0 ys - listMin y0 ys) / 2,
          (listMax t0 ts - listMin t0 ts) / 2, listMin y0 ys] ∧
      radioactiveP0 (t0 :: ts) (y0 :: ys) =
        Except.ok [listMax y0 ys - listMin y0 ys,
          (listMax t0 ts - listMin t0 ts) / 3, listMin y0 ys] := by
  intro t0 y0 ts ys
  exact ⟨singleFitP0_cons t0 y0 ts ys, doubleFitP0_cons t0 y0 ts ys,
    radioactiveP0_cons t0 y0 ts ys⟩

/-- Counterexample to claim C5 as stated: on the degenerate series
t = [5, 5], y = [7, 7] (duration 0, max = min) the main loop of
final_fit.py produces the decay-time guess 0, not the fixed positive
default 1.0 that the claim requires. -/
theorem degenerate_tau_guess_counterexample :
    singleFitP0 [(5 : ℝ), 5] [(7 : ℝ), 7] = Except.ok [0, 0, 7] ∧
      (0 : ℝ) ≠ 1 := by
  refine ⟨?_, by norm_num⟩
  rw [singleFitP0_cons]
  norm_num [listMax, listMin]

/-- Claim C5 amended: on every degenerate series (max = min for counts
and for times) the amplitude guess is 0 and the baseline guess is min y at
all three call sites, but only the initial fits.py section falls back to
the decay-time default 1.0; the main loop of final_fit.py and
Radioactive_Code.py produce the decay-time guess duration / 3 = 0 with no
fallback (no division by zero occurs, the divisor being the constant 3). -/
theorem degenerate_guess_behavior :
    ∀ (t0 y0 : ℝ) (ts ys : List ℝ),
      listMax y0 ys = listMin y0 ys →
      listMax t0 ts = listMin t0 ts →
      singleFitP0 (t0 :: ts) (y0 :: ys) =
        Except.ok [0, 0, listMin y0 ys] ∧
      radioactiveP0 (t0 :: ts) (y0 :: ys) =
        Except.ok [0, 0, listMin y0 ys] ∧
      initialFitsP0 (t0 :: ts) (y0 :: ys) =
        Except.ok [0, 1, listMin y0 ys] := by
  intro t0 y0 ts ys hy ht
  have ham : listMax y0 ys - listMin y0 ys = 0 := by rw [hy]; ring
  have hd : listMax t0 ts - listMin t0 ts = 0 := by rw [ht]; ring
  refine ⟨?_, ?_, ?_⟩
  · rw [singleFitP0_cons, ham, hd]
    norm_num
  · rw [radioactiveP0_cons, ham, hd]
    norm_num
  · rw [initialFitsP0_cons, ham, hd]
    rw [if_neg (lt_irrefl (0 : ℝ))]

/-- Witness for the amended C5 at the degenerate series t = [5, 5],
y = [7, 7]. -/
theorem degenerate_guess_behavior_witness :
    initialFitsP0 [(5 : ℝ), 5] [(7 : ℝ), 7] =
      Except.ok [0, 1, listMin 7 [7]] :=
  (degenerate_guess_behavior 5 7 [5] [7]
    (by norm_num [listMax, listMin]) (by norm_num [listMax, listMin])).2.2

/-- Counterexample to claim C3 as stated: in Radioactive_Code.py a solver
failure on the second source aborts the whole batch (the loop result is
the propagated error), so a fit failure is fatal there, contrary to the
claim that it is never fatal; final_fit.py, by contrast, keeps going. -/
theorem radioactive_batch_fatal_counterexample :
    radioactiveLoop ℕ
        [Except.ok 1, Except.error ("Optimal parameters not found"),
         Except.ok 2] =
      Except.error ("Optimal parameters not found") ∧
    finalFitMainLoop ℕ
        [Except.ok 1, Except.error ("Optimal parameters not found"),
         Except.ok 2] =
      [ChannelOutcome.fitPlotted 1,
       ChannelOutcome.rawDataOnly ("Optimal parameters not found"),
       ChannelOutcome.fitPlotted 2] := ⟨rfl, rfl⟩

/-- Claim C3 amended: in the main loop of final_fit.py a solver failure
is never fatal to the batch: every channel yields an outcome, a failing
channel yields the raw-data-only outcome carrying the failure reason, and
a succeeding channel yields its plotted fit; in Radioactive_Code.py the
unguarded curve_fit call makes a failure abort the batch instead. -/
theorem final_fit_failure_nonfatal :
    ∀ (α : Type) (outcomes : List (Except String α)),
      (finalFitMainLoop α outcomes).length = outcomes.length ∧
      (∀ (i : Nat) (e : String), outcomes[i]? = some (Except.error e) →
        (finalFitMainLoop α outcomes)[i]? =
          some (ChannelOutcome.rawDataOnly e)) ∧
      (∀ (i : Nat) (r : α), outcomes[i]? = some (Except.ok r) →
        (finalFitMainLoop α outcomes)[i]? =
          some (ChannelOutcome.fitPlotted r)) := by
  intro α outcomes
  refine ⟨by simp [finalFitMainLoop], ?_, ?_⟩
  · intro i e h
    simp [finalFitMainLoop, List.getElem?_map, h]
  · intro i r h
    simp [finalFitMainLoop, List.getElem?_map, h]

/-- Witness for the amended C3 on a concrete three-channel batch whose
second fit fails. -/
theorem final_fit_failure_nonfatal_witness :
    (finalFitMainLoop ℕ
        [Except.ok 4, Except.error ("boom"), Except.ok 6])[1]? =
      some (ChannelOutcome.rawDataOnly ("boom")) :=
  (final_fit_failure_nonfatal ℕ
    [Except.ok 4, Except.error ("boom"), Except.ok 6]).2.1 1 ("boom") rfl

/-- Claim C6: any parameter vector admitted by the box bounds of either
model variant has every amplitude and every decay time nonnegative, and
conversely the bounds admit any baseline c, including negative ones. -/
theorem fit_bounds_invariant :
    (∀ A tau c : ℝ,
      withinBounds singleLowerBounds singleUpperBounds [A, tau, c] →
        0 ≤ A ∧ 0 ≤ tau) ∧
    (∀ A1 tau1 A2 tau2 c : ℝ,
      withinBounds doubleLowerBounds doubleUpperBounds
          [A1, tau1, A2, tau2, c] →
        0 ≤ A1 ∧ 0 ≤ tau1 ∧ 0 ≤ A2 ∧ 0 ≤ tau2) ∧
    (∀ A tau c : ℝ, 0 ≤ A → 0 ≤ tau →
      withinBounds singleLowerBounds singleUpperBounds [A, tau, c]) ∧
    (∀ A1 tau1 A2 tau2 c : ℝ, 0 ≤ A1 → 0 ≤ tau1 → 0 ≤ A2 → 0 ≤ tau2 →
      withinBounds doubleLowerBounds doubleUpperBounds
        [A1, tau1, A2, tau2, c]) := by
  refine ⟨?_, ?_, ?_, ?_⟩
  · intro A tau c h
    have h0 := (h 0 (by norm_num)).1
    have h1 := (h 1 (by norm_num)).1
    simp only [singleLowerBounds, List.getD_cons_zero, List.getD_cons_succ]
      at h0 h1
    exact ⟨by exact_mod_cast h0, by exact_mod_cast h1⟩
  · intro A1 tau1 A2 tau2 c h
    have h0 := (h 0 (by norm_num)).1
    have h1 := (h 1 (by norm_num)).1
    have h2 := (h 2 (by norm_num)).1
    have h3 := (h 3 (by norm_num)).1
    simp only [doubleLowerBounds, List.getD_cons_zero, List.getD_cons_succ]
      at h0 h1 h2 h3
    exact ⟨by exact_mod_cast h0, by exact_mod_cast h1,
      by exact_mod_cast h2, by exact_mod_cast h3⟩
  · intro A tau c hA htau i hi
    have hi3 : i < 3 := by simpa using hi
    interval_cases i <;>
      simp only [singleLowerBounds, singleUpperBounds, List.getD_cons_zero,
        List.getD_cons_succ] <;>
      refine ⟨?_, le_top⟩
    · exact_mod_cast hA
    · exact_mod_cast htau
    · exact bot_le
  · intro A1 tau1 A2 tau2 c h1 h2 h3 h4 i hi
    have hi5 : i < 5 := by simpa using hi
    interval_cases i <;>
      simp only [doubleLowerBounds, doubleUpperBounds, List.getD_cons_zero,
        List.getD_cons_succ] <;>
      refine ⟨?_, le_top⟩
    · exact_mod_cast h1
    · exact_mod_cast h2
    · exact_mod_cast h3
    · exact_mod_cast h4
    · exact bot_le

/-- Witness for C6 at the concrete single-fit vector [1, 2, -5], whose
baseline is negative and which the bounds admit. -/
theorem fit_bounds_invariant_witness :
    withinBounds singleLowerBounds singleUpperBounds [1, 2, -5] ∧
      (0 : ℝ) ≤ 1 ∧ (0 : ℝ) ≤ 2 := by
  have hmem := fit_bounds_invariant.2.2.1 1 2 (-5) (by norm_num) (by norm_num)
  exact ⟨hmem, (fit_bounds_invariant.1 1 2 (-5) hmem).1,
    (fit_bounds_invariant.1 1 2 (-5) hmem).2⟩

/-- Claim C9: the absolute_sigma convention is inconsistent across the
curve_fit call sites (final_fit.py passes true everywhere,
Radioactive_Code.py passes false); under the spec-modelled covariance
post-processing of the external solver the two conventions agree on the
parameter estimates but, whenever the reduced chi-square rescaling is not
the identity, report different parameter covariances. -/
theorem absolute_sigma_inconsistency :
    (finalFitSingleCall.absoluteSigma = true ∧
     finalFitDoubleCall.absoluteSigma = true ∧
     initialFitsCall.absoluteSigma = true ∧
     radioactiveCall.absoluteSigma = false) ∧
    (∀ (popt covDiag : List ℝ) (redChi2 : ℝ),
      (curveFitReport finalFitSingleCall.absoluteSigma popt covDiag
          redChi2).1 =
        (curveFitReport radioactiveCall.absoluteSigma popt covDiag
          redChi2).1) ∧
    (∀ (popt : List ℝ) (v redChi2 : ℝ), redChi2 * v ≠ v →
      (curveFitReport radioactiveCall.absoluteSigma popt [v] redChi2).2 ≠
        (curveFitReport finalFitSingleCall.absoluteSigma popt [v]
          redChi2).2) := by
  refine ⟨⟨rfl, rfl, rfl, rfl⟩, fun popt covDiag redChi2 => rfl, ?_⟩
  intro popt v redChi2 h hcontra
  apply h
  simpa [curveFitReport, radioactiveCall, finalFitSingleCall] using hcontra

/-- Witness for C9 at reduced chi-square 2 and unit covariance diagonal:
the two conventions report different covariances. -/
theorem absolute_sigma_inconsistency_witness :
    (curveFitReport radioactiveCall.absoluteSigma [] [1] 2).2 ≠
      (curveFitReport finalFitSingleCall.absoluteSigma [] [1] 2).2 :=
  absolute_sigma_inconsistency.2.2 [] 1 2 (by norm_num)

end RadioactiveSource
